import Mathlib

/-!
Shallow embedding of the Williecat reconnaissance tool (Python) in Lean 4.

The embedding follows the source files:
  williecat/core.py              -- outcome taxonomy, classify_exception, ModuleResult
  williecat/modules/__init__.py  -- legacy ModuleResult (no outcome field), registry, iter_modules
  williecat/cli.py               -- _execute_modules orchestration, main-flow ordering
  williecat/modules/*.py         -- the six adapters
  williecat/http.py              -- raise_for_status, case-insensitive headers

Python values appearing in JSON payloads are modelled by `JVal`; Python
exceptions by `PyExc`; the HTTP capability (`context.session`) by a pure
function from requests to either an exception or a response.  Mutable
state (the header module's class-level user-agent cycle) is threaded as an
explicit counter.  String rendering of nested containers is abbreviated
("[...]"): no code path exercised by the claims applies `str` to a
container value.
-/

namespace Williecat

/-- JSON-like Python value (None / bool / int / str / list / dict). -/
inductive JVal where
  | nul : JVal
  | bool : Bool → JVal
  | num : Int → JVal
  | str : String → JVal
  | arr : List JVal → JVal
  | obj : List (String × JVal) → JVal

mutual

/-- Structural equality of values, modelling Python `==` on JSON data. -/
def JVal.beq : JVal → JVal → Bool
  | .nul, .nul => true
  | .bool a, .bool b => a == b
  | .num a, .num b => a == b
  | .str a, .str b => a == b
  | .arr xs, .arr ys => beqArr xs ys
  | .obj xs, .obj ys => beqObj xs ys
  | _, _ => false

/-- Elementwise equality of value lists. -/
def beqArr : List JVal → List JVal → Bool
  | [], [] => true
  | x :: xs, y :: ys => JVal.beq x y && beqArr xs ys
  | _, _ => false

/-- Elementwise equality of key-value lists. -/
def beqObj : List (String × JVal) → List (String × JVal) → Bool
  | [], [] => true
  | (k1, v1) :: xs, (k2, v2) :: ys => k1 == k2 && JVal.beq v1 v2 && beqObj xs ys
  | _, _ => false

end

instance : BEq JVal := ⟨JVal.beq⟩

/-- Python truthiness of a value. -/
def pyTruthy : JVal → Bool
  | .nul => false
  | .bool b => b
  | .num n => n != 0
  | .str s => s != ""
  | .arr xs => !xs.isEmpty
  | .obj kvs => !kvs.isEmpty

/-- Python `str()` of a value.  Scalars are rendered exactly as Python does;
the rendering of nested containers is abbreviated (no modelled code path
applies `str` to a container). -/
def pyStr : JVal → String
  | .nul => "None"
  | .bool true => "True"
  | .bool false => "False"
  | .num n => toString n
  | .str s => s
  | .arr _ => "[...]"
  | .obj _ => "\x7b...\x7d"

/-- Dictionary access `d.get(k)`: `None` when the key is absent (first
binding wins, as Python dict keys are unique). -/
def JVal.getKey (v : JVal) (k : String) : JVal :=
  match v with
  | .obj kvs =>
    match kvs.find? (fun p => p.1 == k) with
    | some p => p.2
    | none => .nul
  | _ => .nul

/-- Dictionary access `d.get(k, default)`. -/
def JVal.getKeyD (v : JVal) (k : String) (dflt : JVal) : JVal :=
  match v with
  | .obj kvs =>
    match kvs.find? (fun p => p.1 == k) with
    | some p => p.2
    | none => dflt
  | _ => dflt

/-- Elements produced by iterating a Python value: a list yields its
elements, a dict its keys, a string its characters.  (Iterating any other
value raises in Python; no modelled code path does so.) -/
def pyIterElems : JVal → List JVal
  | .arr xs => xs
  | .obj kvs => kvs.map (fun p => .str p.1)
  | .str s => s.data.map (fun c => .str (String.singleton c))
  | _ => []

/-- Truthiness of an optional string field of the context (`None` and the
empty string are falsy). -/
def truthyOptStr : Option String → Bool
  | none => false
  | some s => s != ""

/-- Whether `xs` occurs as a contiguous run inside the second list. -/
def listHasRun (xs : List Char) : List Char → Bool
  | [] => xs.isEmpty
  | c :: rest => xs.isPrefixOf (c :: rest) || listHasRun xs rest

/-- Case-insensitive containment of `"timed out"`, as used by
`classify_exception` (`"timed out" in str(...).lower()`). -/
def containsTimedOut (s : String) : Bool :=
  listHasRun "timed out".data (s.toLower.data)

/-! ### Exceptions (core.py)

`PyExc.timeoutType` covers values satisfying
`isinstance(exc, (TimeoutError, socket.timeout))`; `PyExc.urlError` covers
`urllib.error.URLError` with its `reason`; `PyExc.other` covers every other
exception (including `HttpError` from http.py).  Each carries its `str()`
rendering. -/

/-- The `reason` attribute of a `urllib.error.URLError`. -/
structure URLReason where
  isTimeoutType : Bool
  text : String
deriving DecidableEq, Repr

/-- A raised Python exception, as observed by `classify_exception`. -/
inductive PyExc where
  | timeoutType : String → PyExc
  | urlError : URLReason → String → PyExc
  | other : String → PyExc
deriving DecidableEq, Repr

/-- Textual rendering `str(exc)` of an exception. -/
def PyExc.text : PyExc → String
  | .timeoutType t => t
  | .urlError _ t => t
  | .other t => t

def OUTCOME_BLOCKED : String := "blocked"
def OUTCOME_TIMEOUT : String := "timeout"
def OUTCOME_NO_DATA : String := "no_data"
def OUTCOME_SUCCESS : String := "success"

/-- core.py `classify_exception`: classify an exception into a stable
outcome. -/
def classify_exception (exc : PyExc) : String :=
  match exc with
  | .timeoutType _ => OUTCOME_TIMEOUT
  | .urlError reason text =>
    if reason.isTimeoutType then OUTCOME_TIMEOUT
    else if containsTimedOut reason.text then OUTCOME_TIMEOUT
    else if containsTimedOut text then OUTCOME_TIMEOUT
    else OUTCOME_BLOCKED
  | .other text =>
    if containsTimedOut text then OUTCOME_TIMEOUT
    else OUTCOME_BLOCKED

/-- Modelled from the spec's words (for comparing `classify_exception`
against the specification): an error is timeout-shaped when it is a
deadline-expiry exception type, a wrapped timeout reason (by type or by a
case-insensitive "timed out" match on the reason's message), or its own
message contains "timed out" case-insensitively. -/
def timeoutShapedSpec : PyExc → Bool
  | .timeoutType _ => true
  | .urlError reason text =>
    reason.isTimeoutType || containsTimedOut reason.text || containsTimedOut text
  | .other text => containsTimedOut text

/-! ### Execution context (core.py `ReconContext`)

The `session` field of the Python context is the HTTP capability; it is
modelled separately (`Session` below) and passed alongside the context.
The timeout is a rational number of seconds (the CLI default is 10.0). -/

structure ReconContext where
  domain : Option String
  ip_address : Option String
  base_url : Option String
  timeout : ℚ

/-! ### Result model

core.py `ModuleResult` carries `module`, `data`, `warnings`, `outcome`,
`error`.  The duplicate class in modules/__init__.py (used at runtime by
the dns, certs, ip and social adapters) has no `outcome` field at all;
both are modelled by one structure, with the missing field represented by
`outcome = none`. -/

structure ModuleResult where
  module : String
  data : Option JVal
  warnings : List String
  outcome : Option String
  error : Option String

/-- Construction of a core.py `ModuleResult`, including the
`__post_init__` outcome defaulting: a truthy `error` yields `blocked`,
absent data yields `no_data`, otherwise `success`. -/
def mkResult (module : String) (data : Option JVal) (warnings : List String)
    (outcome : Option String) (error : Option String) : ModuleResult :=
  let oc :=
    match outcome with
    | some o => some o
    | none =>
      if truthyOptStr error then some OUTCOME_BLOCKED
      else match data with
        | none => some OUTCOME_NO_DATA
        | some _ => some OUTCOME_SUCCESS
  ⟨module, data, warnings, oc, error⟩

/-- Construction of the legacy `ModuleResult` of modules/__init__.py,
which has no `outcome` field (modelled as `none`). -/
def mkLegacyResult (module : String) (data : Option JVal) (warnings : List String)
    (error : Option String) : ModuleResult :=
  ⟨module, data, warnings, none, error⟩

/-- core.py `ModuleResult.failure`: data absent, the given message as
error, outcome as given (Python default: blocked). -/
def ModuleResult.failure (module : String) (message : String) (outcome : String)
    (warnings : List String) : ModuleResult :=
  mkResult module none warnings (some outcome) (some message)

/-- core.py `ModuleResult.from_exception`: classify the exception and use
its textual rendering as the error message. -/
def ModuleResult.from_exception (module : String) (exc : PyExc)
    (warnings : List String) : ModuleResult :=
  mkResult module none warnings (some (classify_exception exc)) (some exc.text)

/-! ### HTTP capability (http.py)

A request records the method, url, query parameters and per-request
headers issued through `HttpSession` (parameter values are rendered as
the strings `urlencode` would receive; the constant `allow_redirects=True`
argument is not modelled).  A session maps a request to a response or a
raised exception.  A response carries the status code, final url, header
items, cookies, and the result of `.json()` (which may raise). -/

structure Request where
  method : String
  url : String
  params : List (String × String)
  headers : List (String × String)
  timeout : ℚ
deriving DecidableEq

structure HttpResponse where
  status_code : Nat
  url : String
  headers : List (String × String)
  cookies : List (String × String)
  jsonResult : Except PyExc JVal

abbrev Session : Type := Request → Except PyExc HttpResponse

/-- Exact-key lookup in response headers (`response.headers.get(k)`),
returning the first binding. -/
def hGet (headers : List (String × String)) (k : String) : Option String :=
  match headers.find? (fun p => p.1 == k) with
  | some p => some p.2
  | none => none

/-- http.py `HttpResponse.raise_for_status`: raises `HttpError` (rendered
as "HTTP status for url") unless the status is in [200, 400). -/
def raise_for_status (r : HttpResponse) : Except PyExc Unit :=
  if 200 ≤ r.status_code ∧ r.status_code < 400 then .ok ()
  else .error (.other ("HTTP " ++ toString r.status_code ++ " for " ++ r.url))

/-- The shared adapter step `response = session.get(...)`;
`response.raise_for_status()`; `payload = response.json()`, propagating
whichever exception occurs first. -/
def fetchJson (session : Session) (req : Request) : Except PyExc JVal :=
  match session req with
  | .error e => .error e
  | .ok resp =>
    match raise_for_status resp with
    | .error e => .error e
    | .ok _ => resp.jsonResult

/-! ### Module registry (modules/__init__.py) -/

/-- Whitespace characters stripped by Python `str.strip()` (ASCII range). -/
def pyIsSpace (c : Char) : Bool :=
  c == ' ' || c == '\t' || c == '\n' || c == '\r' || c == '\x0b' || c == '\x0c'

/-- Python `str.strip()`. -/
def pyStrip (s : String) : String :=
  ((s.data.dropWhile pyIsSpace).reverse.dropWhile pyIsSpace).reverse.asString

/-- Python `str.lower()` (ASCII letters, as in the module names at hand). -/
def pyLower (s : String) : String :=
  (s.data.map Char.toLower).asString

/-- The keys of `get_module_registry()`, in construction order: the `name`
attributes of the six adapter classes. -/
def registry_names : List String :=
  ["whois", "dns", "certs", "headers", "ip", "social"]

/-- The normalisation `name.strip().lower()` applied by `iter_modules`. -/
def normalizeName (name : String) : String :=
  pyLower (pyStrip name)

/-- modules/__init__.py `iter_modules`: validated module names preserving
order; raises `KeyError("Unknown module: {name}")` on the first miss. -/
def iter_modules : List String → Except String (List String)
  | [] => .ok []
  | name :: rest =>
    let key := normalizeName name
    if registry_names.contains key then
      match iter_modules rest with
      | .ok resolved => .ok (key :: resolved)
      | .error e => .error e
    else .error ("Unknown module: " ++ name)

/-! ### Orchestrator (cli.py `_execute_modules`)

A module is the `ReconModule` interface: a name and a `run` that may
either return a `ModuleResult` or raise.  `_execute_modules` looks each
name up in the registry and calls `run(context)` with no surrounding
try/except, so a raised exception propagates out of the loop (display of
results is presentation-only and not modelled). -/

structure PyModule where
  name : String
  run : ReconContext → Except PyExc ModuleResult

/-- cli.py `_execute_modules`: results accumulated in request order; a
lookup miss raises `KeyError` and a raising `run` propagates, both
aborting the remaining modules. -/
def execute_modules (registry : String → Option PyModule) (ctx : ReconContext) :
    List String → Except PyExc (List ModuleResult)
  | [] => .ok []
  | name :: rest =>
    match registry name with
    | none => .error (.other name)
    | some m =>
      match m.run ctx with
      | .error e => .error e
      | .ok r =>
        match execute_modules registry ctx rest with
        | .ok rs => .ok (r :: rs)
        | .error e => .error e

/-- The resolve-then-execute flow of cli.py `main` for an explicit
`--modules` list: `iter_modules` runs first and a `KeyError` aborts via
`parser.error` before the session is built and before `_execute_modules`
is entered. -/
def cli_run (registry : String → Option PyModule) (ctx : ReconContext)
    (moduleArgs : List String) : Except String (Except PyExc (List ModuleResult)) :=
  match iter_modules moduleArgs with
  | .error e => .error e
  | .ok modules => .ok (execute_modules registry ctx modules)

/-- Rendering of an optional registrar string into the result mapping
(absent becomes `None`). -/
def optStrJ : Option String → JVal
  | none => .nul
  | some s => .str s

/-! ### WHOIS adapter (modules/whois_lookup.py)

Uses the core `ModuleResult` (with outcome defaulting).  Each adapter run
below returns the produced result together with the trace of requests
issued through the session. -/

/-- whois_lookup.py `_extract_events`: event-action to event-date mapping
(dict keys coerced through their textual form; RDAP event actions are
strings). -/
def extract_events (events : List JVal) : List (String × JVal) :=
  events.foldl (fun mapped event =>
    let action := event.getKey "eventAction"
    let date := event.getKey "eventDate"
    if pyTruthy action && pyTruthy date then
      if mapped.any (fun p => p.1 == pyStr action) then
        mapped.map (fun p => if p.1 == pyStr action then (p.1, date) else p)
      else mapped ++ [(pyStr action, date)]
    else mapped) []

/-- whois_lookup.py `_extract_nameservers`: `ldhName` or `unicodeName` of
each nameserver entry, kept when truthy. -/
def extract_nameservers (nameservers : List JVal) : List JVal :=
  nameservers.foldl (fun values ns =>
    let name :=
      if pyTruthy (ns.getKey "ldhName") then ns.getKey "ldhName"
      else ns.getKey "unicodeName"
    if pyTruthy name then values ++ [name] else values) []

/-- The inner vcard scan of `_extract_registrar`: the first item of shape
`["fn", _, _, value, ...]` yields `str(value)`. -/
def vcardFn : List JVal → Option String
  | [] => none
  | item :: rest =>
    match item with
    | .arr fields =>
      if fields.length ≥ 4 && (fields.headD .nul == .str "fn") then
        some (pyStr (fields.getD 3 .nul))
      else vcardFn rest
    | _ => vcardFn rest

/-- whois_lookup.py `_extract_registrar`: first entity with a registrar or
registrant role; its vcard full name, else its truthy handle, else keep
scanning. -/
def extract_registrar : List JVal → Option String
  | [] => none
  | entity :: rest =>
    let roles := pyIterElems (entity.getKeyD "roles" (.arr []))
    if roles.contains (.str "registrar") || roles.contains (.str "registrant") then
      let viaVcard :=
        match entity.getKey "vcardArray" with
        | .arr l => if l.length == 2 then vcardFn (pyIterElems (l.getD 1 .nul)) else none
        | _ => none
      match viaVcard with
      | some s => some s
      | none =>
        let handle := entity.getKey "handle"
        if pyTruthy handle then some (pyStr handle) else extract_registrar rest
    else extract_registrar rest

/-- modules/whois_lookup.py `WhoisLookupModule.run`. -/
def whoisRun (ctx : ReconContext) (session : Session) : ModuleResult × List Request :=
  if !(truthyOptStr ctx.domain) then
    (mkResult "whois" none [] none (some "Domain is required for WHOIS lookups."), [])
  else
    let domain := ctx.domain.getD ""
    let req : Request := ⟨"GET", "https://rdap.org/domain/" ++ domain, [], [], ctx.timeout⟩
    match fetchJson session req with
    | .error exc =>
      (mkResult "whois" none [] none (some ("WHOIS lookup failed: " ++ exc.text)), [req])
    | .ok data =>
      let result := JVal.obj
        [("domain", data.getKey "ldhName"),
         ("status", data.getKey "status"),
         ("registrar", optStrJ (extract_registrar (pyIterElems (data.getKeyD "entities" (.arr []))))),
         ("events", .obj (extract_events (pyIterElems (data.getKeyD "events" (.arr []))))),
         ("nameservers", .arr (extract_nameservers (pyIterElems (data.getKeyD "nameservers" (.arr [])))))]
      (mkResult "whois" (some result) [] none none, [req])

/-! ### DNS adapter (modules/dns_enum.py) — legacy `ModuleResult`. -/

/-- dns_enum.py `DNS_TYPES`, in insertion order. -/
def DNS_TYPES : List (String × Nat) :=
  [("A", 1), ("AAAA", 28), ("MX", 15), ("NS", 2), ("TXT", 16)]

/-- The resolver request issued for one record type. -/
def dnsReq (domain : String) (timeout : ℚ) (typeId : Nat) : Request :=
  ⟨"GET", "https://dns.google/resolve", [("name", domain), ("type", toString typeId)], [], timeout⟩

/-- One record type's step of dns_enum.py: either the warning string it
appends, or the truthy answer-data values it collects. -/
def dnsFetch (session : Session) (domain : String) (timeout : ℚ) (p : String × Nat) :
    Except String (List String) :=
  match fetchJson session (dnsReq domain timeout p.2) with
  | .error exc => .error (p.1 ++ " lookup failed: " ++ exc.text)
  | .ok payload =>
    let status := payload.getKey "Status"
    if status != JVal.num 0 then .error (p.1 ++ " lookup returned status " ++ pyStr status)
    else
      let answers := payload.getKeyD "Answer" (.arr [])
      .ok ((pyIterElems answers).foldl (fun vs answer =>
        let d := answer.getKey "data"
        if pyTruthy d then vs ++ [pyStr d] else vs) [])

/-- modules/dns_enum.py `DnsEnumModule.run`. -/
def dnsRun (ctx : ReconContext) (session : Session) : ModuleResult × List Request :=
  if !(truthyOptStr ctx.domain) then
    (mkLegacyResult "dns" none [] (some "Domain is required for DNS enumeration."), [])
  else
    let domain := ctx.domain.getD ""
    let rw := DNS_TYPES.foldl (fun (acc : List (String × JVal) × List String) p =>
      match dnsFetch session domain ctx.timeout p with
      | .error w => (acc.1, acc.2 ++ [w])
      | .ok values =>
        if values.isEmpty then acc
        else (acc.1 ++ [(p.1, .arr (values.map .str))], acc.2)) ([], [])
    (mkLegacyResult "dns" (if rw.1.isEmpty then none else some (.obj rw.1)) rw.2 none,
     DNS_TYPES.map (fun p => dnsReq domain ctx.timeout p.2))

/-! ### Certificate adapter (modules/cert_scraper.py) — legacy `ModuleResult`. -/

/-- cert_scraper.py deduplication key: the truthy `sha256`-or-`sha1`
fingerprint, else the "common_name:name_value" composite string. -/
def certKey (entry : JVal) : JVal :=
  let fingerprint :=
    if pyTruthy (entry.getKey "sha256") then entry.getKey "sha256" else entry.getKey "sha1"
  if pyTruthy fingerprint then fingerprint
  else .str (pyStr (entry.getKey "common_name") ++ ":" ++ pyStr (entry.getKey "name_value"))

/-- The record appended to `results` for one certificate entry. -/
def certProject (entry : JVal) : JVal :=
  .obj [("common_name", entry.getKey "common_name"),
        ("name_value", entry.getKey "name_value"),
        ("issuer_name", entry.getKey "issuer_name"),
        ("not_before", entry.getKey "not_before"),
        ("not_after", entry.getKey "not_after")]

/-- The cert_scraper.py selection loop, keyed records paired with their
deduplication keys: entries whose key is in `seen` are skipped, and the
append that reaches the record limit (`remaining` counts the slots left of
the fixed 25) breaks the loop. -/
def certSelect : List JVal → List JVal → Nat → List (JVal × JVal)
  | [], _, _ => []
  | entry :: rest, seen, remaining =>
    let key := certKey entry
    if seen.contains key then certSelect rest seen remaining
    else if remaining ≤ 1 then [(key, certProject entry)]
    else (key, certProject entry) :: certSelect rest (key :: seen) (remaining - 1)

/-- modules/cert_scraper.py `CertificateScraperModule.run`. -/
def certsRun (ctx : ReconContext) (session : Session) : ModuleResult × List Request :=
  if !(truthyOptStr ctx.domain) then
    (mkLegacyResult "certs" none [] (some "Domain is required for certificate scraping."), [])
  else
    let domain := ctx.domain.getD ""
    let req : Request := ⟨"GET", "https://crt.sh/?q=" ++ domain ++ "&output=json", [], [], ctx.timeout⟩
    match fetchJson session req with
    | .error exc =>
      (mkLegacyResult "certs" none [] (some ("crt.sh query failed: " ++ exc.text)), [req])
    | .ok payload =>
      (mkLegacyResult "certs" (some (.arr ((certSelect (pyIterElems payload) [] 25).map Prod.snd))) [] none,
       [req])

/-! ### Header adapter (modules/header_sniffer.py) — core `ModuleResult`.

The class-level `itertools.cycle` over `USER_AGENTS` (a `ClassVar` shared
by every instance in the process) is modelled by an explicit draw counter
threaded through `headerRun`; drawing yields element `count % 4` and
increments the counter.  The counter is consumed after the URL
precondition check, exactly where `next(self._ua_cycle)` sits in the
source. -/

def USER_AGENTS : List String :=
  ["Mozilla/5.0 (Windows NT 10.0; Win64; x64) AppleWebKit/537.36 (KHTML, like Gecko) Chrome/120.0 Safari/537.36",
   "Mozilla/5.0 (Macintosh; Intel Mac OS X 13_2) AppleWebKit/605.1.15 (KHTML, like Gecko) Version/16.2 Safari/605.1.15",
   "Mozilla/5.0 (X11; Linux x86_64) Gecko/20100101 Firefox/121.0",
   "curl/8.5.0"]

/-- The user agent produced by the i-th draw from the class-level cycle. -/
def uaAt (i : Nat) : String := USER_AGENTS.getD (i % 4) ""

def SECURITY_HEADERS : List String :=
  ["strict-transport-security", "content-security-policy", "x-frame-options",
   "x-content-type-options", "referrer-policy", "permissions-policy",
   "x-xss-protection"]

/-- Auxiliary scan for Python `str.title()`. -/
def pyTitleGo : List Char → Bool → List Char
  | [], _ => []
  | c :: cs, atWordStart =>
    (if atWordStart then c.toUpper else c.toLower) :: pyTitleGo cs (!c.isAlpha)

/-- Python `str.title()` (ASCII), as used for the title-case header
lookup fallback. -/
def pyTitle (s : String) : String := (pyTitleGo s.data true).asString

/-- The warning literal of header_sniffer.py line 57 (the source file
contains the mis-encoded dash bytes U+00E2 U+20AC U+201C verbatim). -/
def HEAD_FALLBACK_WARNING : String :=
  "HEAD not supported â€“ performed safe GET fallback."

/-- The security-header collection loop: exact lookup first, title-case
lookup second, kept in allow-list order when found. -/
def collectSecurityHeaders (headers : List (String × String)) : List (String × JVal) :=
  SECURITY_HEADERS.foldl (fun acc h =>
    let value :=
      match hGet headers h with
      | some v => some v
      | none => hGet headers (pyTitle h)
    match value with
    | some v => acc ++ [(h, .str v)]
    | none => acc) []

/-- The metadata mapping built from the final response. -/
def headerMetadata (resp : HttpResponse) (method : String) (user_agent : String) : JVal :=
  .obj [("url", .str resp.url),
        ("method", .str method),
        ("status_code", .num (resp.status_code : Int)),
        ("server", optStrJ (hGet resp.headers "Server")),
        ("powered_by", optStrJ (hGet resp.headers "X-Powered-By")),
        ("user_agent", .str user_agent),
        ("cookies", .obj (resp.cookies.map (fun c => (c.1, JVal.str c.2)))),
        ("security_headers", .obj (collectSecurityHeaders resp.headers))]

/-- The url used by the header adapter: `base_url`, else
`https://{domain}`, else the precondition fails. -/
def resolveHeaderUrl (ctx : ReconContext) : Option String :=
  if truthyOptStr ctx.base_url then ctx.base_url
  else if truthyOptStr ctx.domain then some ("https://" ++ ctx.domain.getD "")
  else none

/-- modules/header_sniffer.py `HeaderSnifferModule.run`, returning the
result, the issued requests, and the new draw counter. -/
def headerRun (ctx : ReconContext) (session : Session) (uaCount : Nat) :
    ModuleResult × List Request × Nat :=
  match resolveHeaderUrl ctx with
  | none =>
    (mkResult "headers" none [] none (some "A domain or URL is required for header sniffing."),
     [], uaCount)
  | some url =>
    let user_agent := uaAt uaCount
    let headReq : Request := ⟨"HEAD", url, [], [("User-Agent", user_agent)], ctx.timeout⟩
    match session headReq with
    | .error exc =>
      (mkResult "headers" none [] none (some ("HEAD request failed: " ++ exc.text)),
       [headReq], uaCount + 1)
    | .ok resp =>
      if resp.status_code == 405 || resp.status_code == 501 then
        let getReq : Request := ⟨"GET", url, [], [("User-Agent", user_agent)], ctx.timeout⟩
        match session getReq with
        | .error exc =>
          (mkResult "headers" none [] none (some ("HTTP request failed: " ++ exc.text)),
           [headReq, getReq], uaCount + 1)
        | .ok resp2 =>
          let warnings := [HEAD_FALLBACK_WARNING] ++
            (if (collectSecurityHeaders resp2.headers).isEmpty then
              ["No common security headers detected."] else [])
          (mkResult "headers" (some (headerMetadata resp2 "GET (fallback)" user_agent))
            warnings none none, [headReq, getReq], uaCount + 1)
      else
        let warnings :=
          if (collectSecurityHeaders resp.headers).isEmpty then
            ["No common security headers detected."] else []
        (mkResult "headers" (some (headerMetadata resp "HEAD" user_agent))
          warnings none none, [headReq], uaCount + 1)

/-- A process-wide sequence of `run` invocations against the shared
class-level cycle: each invocation receives the counter state the previous
one left behind. -/
def headerRunSeq (session : Session) : List ReconContext → Nat → List ModuleResult
  | [], _ => []
  | ctx :: rest, ua =>
    let r := headerRun ctx session ua
    r.1 :: headerRunSeq session rest r.2.2

/-! ### IP adapter (modules/ip_intel.py) — legacy `ModuleResult`.

Forward resolution (`_resolve_domain`, a `socket.getaddrinfo` call that
is not an HTTP call through the session) is modelled by an explicit
resolver function returning the first usable address, if any. -/

/-- modules/ip_intel.py `IpIntelModule.run`. -/
def ipRun (resolver : String → Option String) (ctx : ReconContext) (session : Session) :
    ModuleResult × List Request :=
  let ip0 := ctx.ip_address
  let ip1 :=
    if !(truthyOptStr ip0) && truthyOptStr ctx.domain then resolver (ctx.domain.getD "")
    else ip0
  if !(truthyOptStr ip1) then
    (mkLegacyResult "ip" none [] (some "An IP address or resolvable domain is required."), [])
  else
    let ip := ip1.getD ""
    let req : Request := ⟨"GET", "https://ipinfo.io/" ++ ip ++ "/json", [], [], ctx.timeout⟩
    match fetchJson session req with
    | .error exc =>
      (mkLegacyResult "ip" none [] (some ("ipinfo lookup failed: " ++ exc.text)), [req])
    | .ok payload =>
      let data := JVal.obj
        [("ip", payload.getKeyD "ip" (.str ip)),
         ("hostname", payload.getKey "hostname"),
         ("city", payload.getKey "city"),
         ("region", payload.getKey "region"),
         ("country", payload.getKey "country"),
         ("loc", payload.getKey "loc"),
         ("org", payload.getKey "org"),
         ("asn", payload.getKey "asn"),
         ("bogon", payload.getKey "bogon")]
      (mkLegacyResult "ip" (some data) [] none, [req])

/-! ### Social adapter (modules/social_trace.py) — legacy `ModuleResult`. -/

/-- The Hacker News search request. -/
def hnReq (domain : String) (timeout : ℚ) : Request :=
  ⟨"GET", "https://hn.algolia.com/api/v1/search", [("query", domain), ("tags", "story")], [], timeout⟩

/-- The Reddit search request. -/
def redditReq (domain : String) (timeout : ℚ) : Request :=
  ⟨"GET", "https://www.reddit.com/search.json",
   [("q", domain), ("limit", "5"), ("sort", "new"), ("type", "link")],
   [("User-Agent", "WilliecatRecon/1.0")], timeout⟩

/-- social_trace.py `_search_hacker_news`: any failure of the upstream
call yields no hits (and no warning). -/
def searchHackerNews (session : Session) (domain : String) (timeout : ℚ) : List JVal :=
  match fetchJson session (hnReq domain timeout) with
  | .error _ => []
  | .ok payload =>
    ((pyIterElems (payload.getKeyD "hits" (.arr []))).take 5).foldl (fun hits hit =>
      let title := hit.getKey "title"
      let url := if pyTruthy (hit.getKey "url") then hit.getKey "url" else hit.getKey "story_url"
      if pyTruthy title && pyTruthy url then
        hits ++ [JVal.obj [("source", .str "HackerNews"), ("title", title), ("url", url)]]
      else hits) []

/-- social_trace.py `_search_reddit`. -/
def searchReddit (session : Session) (domain : String) (timeout : ℚ) : List JVal :=
  match fetchJson session (redditReq domain timeout) with
  | .error _ => []
  | .ok payload =>
    (pyIterElems ((payload.getKeyD "data" (.obj [])).getKeyD "children" (.arr []))).foldl
      (fun hits child =>
        let d := child.getKeyD "data" (.obj [])
        let title := d.getKey "title"
        let url := d.getKey "url"
        if pyTruthy title && pyTruthy url then
          hits ++ [JVal.obj [("source", .str "Reddit"), ("title", title), ("url", url),
                             ("subreddit", d.getKey "subreddit")]]
        else hits) []

/-- modules/social_trace.py `SocialTraceModule.run`. -/
def socialRun (ctx : ReconContext) (session : Session) : ModuleResult × List Request :=
  if !(truthyOptStr ctx.domain) then
    (mkLegacyResult "social" none [] (some "Domain is required for social tracing."), [])
  else
    let domain := ctx.domain.getD ""
    let hits := searchHackerNews session domain ctx.timeout ++ searchReddit session domain ctx.timeout
    if hits.isEmpty then
      (mkLegacyResult "social" none ["No social mentions discovered."] none,
       [hnReq domain ctx.timeout, redditReq domain ctx.timeout])
    else
      (mkLegacyResult "social" (some (.arr hits)) [] none,
       [hnReq domain ctx.timeout, redditReq domain ctx.timeout])

/-! ### Shared fixtures and helper lemmas -/

/-- A context with no target fields set. -/
def ctxEmpty : ReconContext := ⟨none, none, none, 10⟩

/-- A context with only a domain. -/
def ctxExample : ReconContext := ⟨some "example.com", none, none, 10⟩

/-- A context with only a base url. -/
def ctxUrlOnly : ReconContext := ⟨none, none, some "https://example.test", 10⟩

/-- A session on which every request raises a generic transport error. -/
def anySession : Session := fun _ => .error (.other "connection refused")

/-- A session on which every request raises `socket.timeout` (whose
textual rendering is "timed out"). -/
def timeoutSession : Session := fun _ => .error (.timeoutType "timed out")

/-- The invariant claimed for every constructed result: an error is
present exactly for the timeout and blocked outcomes, and data is absent
whenever an error is present. -/
def errorOutcomeInvariant (r : ModuleResult) : Prop :=
  (r.error ≠ none ↔ (r.outcome = some OUTCOME_TIMEOUT ∨ r.outcome = some OUTCOME_BLOCKED)) ∧
  (r.error ≠ none → r.data = none)

/-- A module whose run returns the given result. -/
def okModule (nm : String) (r : ModuleResult) : PyModule :=
  ⟨nm, fun _ => .ok r⟩

/-- A misbehaving module whose run raises. -/
def raisingModule (nm : String) : PyModule :=
  ⟨nm, fun _ => .error (.other "boom")⟩

def resultA : ModuleResult := mkResult "a" (some (.obj [])) [] none none

def resultB : ModuleResult := mkResult "b" (some (.obj [])) [] none none

/-- A registry whose first module raises and whose second behaves. -/
def registryCrash : String → Option PyModule := fun n =>
  if n = "boom" then some (raisingModule "boom")
  else if n = "fine" then some (okModule "fine" resultB)
  else none

/-- A registry of two well-behaved modules. -/
def registryOk : String → Option PyModule := fun n =>
  if n = "a" then some (okModule "a" resultA)
  else if n = "b" then some (okModule "b" resultB)
  else none

/-- The record contributed by one record type: present exactly when its
own query succeeded with truthy answer data. -/
def dnsRecOf (session : Session) (domain : String) (timeout : ℚ) (p : String × Nat) :
    Option (String × JVal) :=
  match dnsFetch session domain timeout p with
  | .error _ => none
  | .ok values => if values.isEmpty then none else some (p.1, .arr (values.map .str))

/-- The warning contributed by one record type: present exactly when its
own query failed or reported a non-zero status. -/
def dnsWarnOf (session : Session) (domain : String) (timeout : ℚ) (p : String × Nat) :
    Option String :=
  match dnsFetch session domain timeout p with
  | .error w => some w
  | .ok _ => none

/-- A concrete resolver session: `A` succeeds with one answer, `AAAA`
raises, `MX` reports resolver status 3, `NS` succeeds with empty answers,
`TXT` succeeds with two answers. -/
def dnsMixedSession : Session := fun req =>
  if req.params.contains ("type", "1") then
    .ok ⟨200, "https://dns.google/resolve", [], [],
      .ok (.obj [("Status", .num 0),
                 ("Answer", .arr [.obj [("data", .str "93.184.216.34")]])])⟩
  else if req.params.contains ("type", "28") then
    .error (.other "connection reset")
  else if req.params.contains ("type", "15") then
    .ok ⟨200, "https://dns.google/resolve", [], [], .ok (.obj [("Status", .num 3)])⟩
  else if req.params.contains ("type", "2") then
    .ok ⟨200, "https://dns.google/resolve", [], [],
      .ok (.obj [("Status", .num 0), ("Answer", .arr [])])⟩
  else
    .ok ⟨200, "https://dns.google/resolve", [], [],
      .ok (.obj [("Status", .num 0),
                 ("Answer", .arr [.obj [("data", .str "v=spf1 -all")],
                                  .obj [("data", .str "verification=abc")]])])⟩

/-- The HEAD request issued by the header adapter at draw counter ua. -/
def headReqOf (url : String) (ua : Nat) (t : ℚ) : Request :=
  ⟨"HEAD", url, [], [("User-Agent", uaAt ua)], t⟩

/-- The fallback GET request issued by the header adapter. -/
def getReqOf (url : String) (ua : Nat) (t : ℚ) : Request :=
  ⟨"GET", url, [], [("User-Agent", uaAt ua)], t⟩

/-- The method field recorded in a result's data mapping. -/
def resultMethod (r : ModuleResult) : JVal :=
  (r.data.getD .nul).getKey "method"

/-- A concrete upstream response returning 405 on HEAD. -/
def resp405c : HttpResponse :=
  ⟨405, "https://example.test", [("Allow", "GET")], [], .ok .nul⟩

/-- The 200 GET response of the concrete fallback upstream. -/
def resp200c : HttpResponse :=
  ⟨200, "https://example.test",
   [("Server", "test-nginx"), ("Strict-Transport-Security", "max-age=31536000")], [],
   .ok .nul⟩

/-- A session returning 405 for HEAD requests and 200 for GET requests. -/
def headerFallbackSession : Session := fun req =>
  if req.method = "HEAD" then .ok resp405c else .ok resp200c

/-- First occurrences of a key sequence under the modelled Python
equality, relative to an already-seen set: the order in which the
selection loop admits new deduplication keys. -/
def dedupKeysBeq : List JVal → List JVal → List JVal
  | [], _ => []
  | k :: rest, seen =>
    if seen.contains k then dedupKeysBeq rest seen
    else k :: dedupKeysBeq rest (k :: seen)

/-- A concrete crt.sh payload with a repeated fingerprint and an entry
without fingerprints. -/
def certPayload : JVal := .arr
  [.obj [("common_name", .str "example.com"), ("name_value", .str "example.com"),
         ("sha256", .str "AA")],
   .obj [("common_name", .str "www.example.com"), ("name_value", .str "www.example.com"),
         ("sha256", .str "AA")],
   .obj [("common_name", .str "example.com"), ("name_value", .str "alt.example.com")]]

/-- A session answering every request with the concrete crt.sh payload. -/
def certSession : Session := fun _ =>
  .ok ⟨200, "https://crt.sh/", [], [], .ok certPayload⟩

/-- The user-agent string recorded in a result's data mapping. -/
def recordedUserAgent (r : ModuleResult) : String :=
  pyStr ((r.data.getD .nul).getKey "user_agent")

theorem truthyOptStr_append (s t : String) (h : s.data ≠ []) :
    truthyOptStr (some (s ++ t)) = true := by
  simp only [truthyOptStr, bne_iff_ne, ne_eq]
  intro he
  apply h
  have hd := congrArg String.data he
  rw [String.data_append] at hd
  exact (List.append_eq_nil.mp hd).1

theorem invariant_error (m : String) (w : List String) (s : String)
    (h : truthyOptStr (some s) = true) :
    errorOutcomeInvariant (mkResult m none w none (some s)) := by
  simp [errorOutcomeInvariant, mkResult, h, OUTCOME_BLOCKED, OUTCOME_TIMEOUT]

theorem invariant_success (m : String) (d : JVal) (w : List String) :
    errorOutcomeInvariant (mkResult m (some d) w none none) := by
  simp [errorOutcomeInvariant, mkResult, truthyOptStr, OUTCOME_SUCCESS,
    OUTCOME_TIMEOUT, OUTCOME_BLOCKED]

theorem classify_cases (e : PyExc) :
    classify_exception e = OUTCOME_TIMEOUT ∨ classify_exception e = OUTCOME_BLOCKED := by
  cases e with
  | timeoutType t => exact Or.inl rfl
  | urlError r t =>
    simp only [classify_exception]
    split_ifs <;> simp
  | other t =>
    simp only [classify_exception]
    split_ifs <;> simp

/-! ### Claim theorems -/

/-- C4: `classify_exception` returns `timeout` exactly on timeout-shaped
errors (deadline-expiry type, wrapped timeout reason by type or by
case-insensitive "timed out" in the reason, or a message containing
"timed out" case-insensitively), and `blocked` on every other error. -/
theorem classify_exception_matches_timeout_shape (e : PyExc) :
    classify_exception e =
      (if timeoutShapedSpec e then OUTCOME_TIMEOUT else OUTCOME_BLOCKED) := by
  cases e with
  | timeoutType t => simp [classify_exception, timeoutShapedSpec]
  | urlError r t =>
    simp only [classify_exception, timeoutShapedSpec]
    split_ifs <;> simp_all
  | other t =>
    simp only [classify_exception, timeoutShapedSpec]

/-- C2 (code bug): a timeout-shaped exception raised by the HTTP
capability yields a result with outcome `blocked`, not `timeout`: the
adapters stringify the exception into `error` and the outcome defaulting
of `__post_init__` maps any error to `blocked`; `classify_exception`
(which does map the same exception to `timeout`) is never consulted. -/
theorem timeout_exception_yields_blocked_outcome :
    classify_exception (.timeoutType "timed out") = OUTCOME_TIMEOUT ∧
    (whoisRun ctxExample timeoutSession).1.outcome = some OUTCOME_BLOCKED ∧
    (whoisRun ctxExample timeoutSession).1.error = some "WHOIS lookup failed: timed out" ∧
    (headerRun ctxUrlOnly timeoutSession 0).1.outcome = some OUTCOME_BLOCKED ∧
    (headerRun ctxUrlOnly timeoutSession 0).1.error = some "HEAD request failed: timed out" := by
  refine ⟨rfl, ?_, ?_, ?_, ?_⟩ <;> decide

/-- C3 (amended): the error-iff-outcome invariant holds for every result
constructed through the core `ModuleResult` — the whois and headers
adapters on all paths, `from_exception`, and `failure` with its default
`blocked` outcome.  (The dns, certs, ip and social adapters construct the
legacy result class of modules/__init__.py, which carries no outcome at
all; see the counterexample.) -/
theorem core_result_error_iff_blocking_outcome :
    (∀ (ctx : ReconContext) (session : Session),
       errorOutcomeInvariant (whoisRun ctx session).1) ∧
    (∀ (ctx : ReconContext) (session : Session) (ua : Nat),
       errorOutcomeInvariant (headerRun ctx session ua).1) ∧
    (∀ (m : String) (exc : PyExc) (w : List String),
       errorOutcomeInvariant (ModuleResult.from_exception m exc w)) ∧
    (∀ (m msg : String) (w : List String),
       errorOutcomeInvariant (ModuleResult.failure m msg OUTCOME_BLOCKED w)) := by
  refine ⟨fun ctx session => ?_, fun ctx session ua => ?_,
    fun m exc w => ?_, fun m msg w => ?_⟩
  · unfold whoisRun
    split
    · exact invariant_error _ _ _ (by decide)
    · dsimp only
      split
      · exact invariant_error _ _ _ (truthyOptStr_append _ _ (by decide))
      · exact invariant_success _ _ _
  · simp only [headerRun]
    split
    · exact invariant_error _ _ _ (by decide)
    · split
      · exact invariant_error _ _ _ (truthyOptStr_append _ _ (by decide))
      · split
        · split
          · exact invariant_error _ _ _ (truthyOptStr_append _ _ (by decide))
          · exact invariant_success _ _ _
        · exact invariant_success _ _ _
  · unfold ModuleResult.from_exception
    rcases classify_cases exc with h | h <;>
      simp [errorOutcomeInvariant, mkResult, h]
  · simp [errorOutcomeInvariant, ModuleResult.failure, mkResult,
      OUTCOME_BLOCKED, OUTCOME_TIMEOUT]

/-- C3 (witness): the invariant at concrete core-path results, via the
theorem. -/
theorem core_result_error_iff_blocking_outcome_witness :
    errorOutcomeInvariant (whoisRun ctxExample timeoutSession).1 ∧
    errorOutcomeInvariant (headerRun ctxUrlOnly headerFallbackSession 0).1 ∧
    errorOutcomeInvariant (ModuleResult.from_exception "whois" (.timeoutType "timed out") []) ∧
    errorOutcomeInvariant (ModuleResult.failure "dns" "no route" OUTCOME_BLOCKED []) :=
  ⟨core_result_error_iff_blocking_outcome.1 ctxExample timeoutSession,
   core_result_error_iff_blocking_outcome.2.1 ctxUrlOnly headerFallbackSession 0,
   core_result_error_iff_blocking_outcome.2.2.1 "whois" (.timeoutType "timed out") [],
   core_result_error_iff_blocking_outcome.2.2.2 "dns" "no route" []⟩

/-- C3 (counterexample): the dns adapter constructs the legacy
`ModuleResult` of modules/__init__.py, which has no outcome field, so its
precondition-failure result has an error present while its outcome is
neither `timeout` nor `blocked` — the claimed biconditional fails. -/
theorem legacy_dns_result_violates_error_iff_outcome :
    ¬ errorOutcomeInvariant (dnsRun ctxEmpty anySession).1 := by
  intro h
  have he : (dnsRun ctxEmpty anySession).1.error =
      some "Domain is required for DNS enumeration." := rfl
  have ho : (dnsRun ctxEmpty anySession).1.outcome = none := rfl
  have hbi := h.1.mp (by rw [he]; exact Option.some_ne_none _)
  rw [ho] at hbi
  rcases hbi with h' | h' <;> exact Option.noConfusion h'

/-- C6 (amended): a missing required context field makes each adapter
return its descriptive precondition error with no data and issue no HTTP
request through the session; the whois and headers adapters produce the
core result (outcome defaulted to `blocked`), while the dns, certs, ip
and social adapters produce the legacy result that carries no outcome. -/
theorem missing_precondition_blocks_without_call (ctx : ReconContext) (session : Session)
    (resolver : String → Option String) (ua : Nat) :
    (truthyOptStr ctx.domain = false →
       whoisRun ctx session =
         (mkResult "whois" none [] none (some "Domain is required for WHOIS lookups."), []) ∧
       dnsRun ctx session =
         (mkLegacyResult "dns" none [] (some "Domain is required for DNS enumeration."), []) ∧
       certsRun ctx session =
         (mkLegacyResult "certs" none [] (some "Domain is required for certificate scraping."), []) ∧
       socialRun ctx session =
         (mkLegacyResult "social" none [] (some "Domain is required for social tracing."), [])) ∧
    (truthyOptStr ctx.base_url = false → truthyOptStr ctx.domain = false →
       headerRun ctx session ua =
         (mkResult "headers" none [] none (some "A domain or URL is required for header sniffing."),
          [], ua)) ∧
    (truthyOptStr (if !truthyOptStr ctx.ip_address && truthyOptStr ctx.domain then
        resolver (ctx.domain.getD "") else ctx.ip_address) = false →
       ipRun resolver ctx session =
         (mkLegacyResult "ip" none [] (some "An IP address or resolvable domain is required."), [])) := by
  refine ⟨fun hd => ?_, fun hb hd => ?_, fun hip => ?_⟩
  · refine ⟨?_, ?_, ?_, ?_⟩ <;> simp [whoisRun, dnsRun, certsRun, socialRun, hd]
  · simp [headerRun, resolveHeaderUrl, hb, hd]
  · simp only [ipRun]
    rw [hip]
    simp

/-- C6 (witness): the precondition results at the empty context, via the
theorem, with every hypothesis discharged concretely. -/
theorem missing_precondition_blocks_without_call_witness :
    truthyOptStr ctxEmpty.domain = false ∧
    truthyOptStr ctxEmpty.base_url = false ∧
    whoisRun ctxEmpty anySession =
      (mkResult "whois" none [] none (some "Domain is required for WHOIS lookups."), []) ∧
    dnsRun ctxEmpty anySession =
      (mkLegacyResult "dns" none [] (some "Domain is required for DNS enumeration."), []) ∧
    certsRun ctxEmpty anySession =
      (mkLegacyResult "certs" none [] (some "Domain is required for certificate scraping."), []) ∧
    socialRun ctxEmpty anySession =
      (mkLegacyResult "social" none [] (some "Domain is required for social tracing."), []) ∧
    headerRun ctxEmpty anySession 0 =
      (mkResult "headers" none [] none (some "A domain or URL is required for header sniffing."),
       [], 0) ∧
    ipRun (fun _ => none) ctxEmpty anySession =
      (mkLegacyResult "ip" none [] (some "An IP address or resolvable domain is required."), []) := by
  have h := missing_precondition_blocks_without_call ctxEmpty anySession (fun _ => none) 0
  have h1 := h.1 (by decide)
  exact ⟨by decide, by decide, h1.1, h1.2.1, h1.2.2.1, h1.2.2.2,
    h.2.1 (by decide) (by decide), h.2.2 (by decide)⟩

/-- C6 (counterexample): the certs adapter's precondition failure carries
an error but its outcome is not `blocked` (the legacy result class has no
outcome field), refuting the claim's "outcome `blocked`" for this
adapter. -/
theorem certs_missing_domain_outcome_not_blocked :
    (certsRun ctxEmpty anySession).1.error ≠ none ∧
    (certsRun ctxEmpty anySession).1.outcome ≠ some OUTCOME_BLOCKED := by
  constructor <;> decide

/-- C1 (counterexample): `_execute_modules` has no defensive wrapper, so
an exception escaping the first module's run propagates and the
orchestrator produces no result sequence at all — in particular not one
result per requested name. -/
theorem execute_modules_aborts_on_raising_module :
    execute_modules registryCrash ctxEmpty ["boom", "fine"] =
      .error (.other "boom") ∧
    ¬ ∃ rs, execute_modules registryCrash ctxEmpty ["boom", "fine"] = .ok rs ∧
        rs.length = 2 := by
  refine ⟨rfl, ?_⟩
  rintro ⟨rs, h, -⟩
  rw [show execute_modules registryCrash ctxEmpty ["boom", "fine"] =
    .error (.other "boom") from rfl] at h
  exact Except.noConfusion h

/-- C1 (amended): when every requested name resolves to a module whose
run returns normally, `_execute_modules` returns exactly one result per
requested name, in the caller-specified order (the `Forall₂`
correspondence also forces equal lengths); a raising run, however,
propagates and aborts the remaining modules — there is no defensive
wrapper converting it via `from_exception`. -/
theorem execute_modules_one_result_per_name
    (registry : String → Option PyModule) (ctx : ReconContext) (names : List String)
    (h : ∀ n ∈ names, ∃ m r, registry n = some m ∧ m.run ctx = .ok r) :
    ∃ rs, execute_modules registry ctx names = .ok rs ∧
      names.length = rs.length ∧
      List.Forall₂ (fun n r => ∃ m, registry n = some m ∧ m.run ctx = .ok r) names rs := by
  induction names with
  | nil => exact ⟨[], rfl, rfl, .nil⟩
  | cons n rest ih =>
    obtain ⟨m, r, hm, hr⟩ := h n (by simp)
    obtain ⟨rs, hrs, hlen, hall⟩ := ih (fun x hx => h x (by simp [hx]))
    refine ⟨r :: rs, ?_, by simp [hlen], .cons ⟨m, hm, hr⟩ hall⟩
    simp [execute_modules, hm, hr, hrs]

/-- C1 (witness): the amended theorem applied to the two-module registry,
hypotheses discharged at concrete inputs. -/
theorem execute_modules_one_result_per_name_witness :
    ∃ rs, execute_modules registryOk ctxEmpty ["a", "b"] = .ok rs ∧
      (["a", "b"] : List String).length = rs.length ∧
      List.Forall₂ (fun n r => ∃ m, registryOk n = some m ∧ m.run ctxEmpty = .ok r)
        ["a", "b"] rs := by
  apply execute_modules_one_result_per_name
  intro n hn
  rcases List.mem_cons.mp hn with rfl | hn'
  · exact ⟨okModule "a" resultA, resultA, rfl, rfl⟩
  rcases List.mem_cons.mp hn' with rfl | hn''
  · exact ⟨okModule "b" resultB, resultB, rfl, rfl⟩
  · exact absurd hn'' (List.not_mem_nil n)

/-- C5: `iter_modules` trims and lowercases each requested name,
preserves caller order and duplicates of the validated names, and on the
first name whose normalisation is not registered it fails with an
unknown-module error naming the raw (untrimmed) input; through the CLI
flow this validation error aborts before any module executes, whatever
the registry's modules would do. -/
theorem resolve_names_validates_before_execution :
    (∀ names : List String,
       (∀ n ∈ names, registry_names.contains (normalizeName n) = true) →
       iter_modules names = .ok (names.map normalizeName)) ∧
    (∀ (pre : List String) (bad : String) (post : List String),
       (∀ n ∈ pre, registry_names.contains (normalizeName n) = true) →
       registry_names.contains (normalizeName bad) = false →
       iter_modules (pre ++ bad :: post) = .error ("Unknown module: " ++ bad) ∧
       (∀ (registry : String → Option PyModule) (ctx : ReconContext),
          cli_run registry ctx (pre ++ bad :: post) =
            .error ("Unknown module: " ++ bad))) := by
  have hok : ∀ names : List String,
      (∀ n ∈ names, registry_names.contains (normalizeName n) = true) →
      iter_modules names = .ok (names.map normalizeName) := by
    intro names
    induction names with
    | nil => intro _; rfl
    | cons n rest ih =>
      intro h
      have hn : normalizeName n ∈ registry_names := by simpa using h n (by simp)
      have hrest := ih (fun x hx => h x (by simp [hx]))
      simp [iter_modules, hn, hrest]
  have herr : ∀ (pre : List String) (bad : String) (post : List String),
      (∀ n ∈ pre, registry_names.contains (normalizeName n) = true) →
      registry_names.contains (normalizeName bad) = false →
      iter_modules (pre ++ bad :: post) = .error ("Unknown module: " ++ bad) := by
    intro pre bad post hpre hbad
    have hbad' : ¬ normalizeName bad ∈ registry_names := by
      simpa using hbad
    induction pre with
    | nil => simp [iter_modules, hbad']
    | cons n rest ih =>
      have hn : normalizeName n ∈ registry_names := by simpa using hpre n (by simp)
      have := ih (fun x hx => hpre x (by simp [hx]))
      simp [iter_modules, hn, this]
  refine ⟨hok, fun pre bad post hpre hbad => ?_⟩
  have he := herr pre bad post hpre hbad
  exact ⟨he, fun registry ctx => by simp [cli_run, he]⟩

/-- C5 (witness): normalisation, order and duplicate preservation, and
the fail-fast unknown-name error, at concrete inputs. -/
theorem resolve_names_validates_before_execution_witness :
    (∀ n ∈ [" WhoIs ", "dns", "dns"], registry_names.contains (normalizeName n) = true) ∧
    iter_modules [" WhoIs ", "dns", "dns"] =
      .ok ([" WhoIs ", "dns", "dns"].map normalizeName) ∧
    [" WhoIs ", "dns", "dns"].map normalizeName = ["whois", "dns", "dns"] ∧
    registry_names.contains (normalizeName "bogus") = false ∧
    iter_modules (["whois"] ++ "bogus" :: ["ip"]) =
      .error ("Unknown module: " ++ "bogus") ∧
    cli_run registryOk ctxEmpty (["whois"] ++ "bogus" :: ["ip"]) =
      .error ("Unknown module: " ++ "bogus") := by
  have h2 := resolve_names_validates_before_execution.2 ["whois"] "bogus" ["ip"]
    (by decide) (by decide)
  exact ⟨by decide,
    resolve_names_validates_before_execution.1 [" WhoIs ", "dns", "dns"] (by decide),
    by decide, by decide, h2.1, h2.2 registryOk ctxEmpty⟩

theorem dns_foldl_eq_filterMap (session : Session) (domain : String) (timeout : ℚ) :
    ∀ (types : List (String × Nat)) (acc : List (String × JVal) × List String),
      types.foldl (fun (acc : List (String × JVal) × List String) p =>
        match dnsFetch session domain timeout p with
        | .error w => (acc.1, acc.2 ++ [w])
        | .ok values =>
          if values.isEmpty then acc
          else (acc.1 ++ [(p.1, .arr (values.map .str))], acc.2)) acc =
      (acc.1 ++ types.filterMap (dnsRecOf session domain timeout),
       acc.2 ++ types.filterMap (dnsWarnOf session domain timeout)) := by
  intro types
  induction types with
  | nil => intro acc; simp
  | cons p rest ih =>
    intro acc
    simp only [List.foldl_cons, List.filterMap_cons]
    cases h : dnsFetch session domain timeout p with
    | error w =>
      rw [ih]
      simp [dnsRecOf, dnsWarnOf, h]
    | ok values =>
      rw [ih]
      by_cases hv : values.isEmpty <;> simp [dnsRecOf, dnsWarnOf, h, hv]

/-- C7: with a domain present, the dns adapter treats the fixed record
types independently — its warnings are exactly the per-type warnings (one
per failed type, in type order), its data holds exactly the record types
whose own queries succeeded with truthy answers, the data field is absent
(not an empty mapping) when no type yields values, and one resolver
request is issued per record type. -/
theorem dns_record_types_independent (ctx : ReconContext) (session : Session)
    (h : truthyOptStr ctx.domain = true) :
    (dnsRun ctx session).1.warnings =
      DNS_TYPES.filterMap (dnsWarnOf session (ctx.domain.getD "") ctx.timeout) ∧
    (dnsRun ctx session).1.data =
      (if (DNS_TYPES.filterMap (dnsRecOf session (ctx.domain.getD "") ctx.timeout)).isEmpty
       then none
       else some (.obj (DNS_TYPES.filterMap (dnsRecOf session (ctx.domain.getD "") ctx.timeout)))) ∧
    (dnsRun ctx session).2 =
      DNS_TYPES.map (fun p => dnsReq (ctx.domain.getD "") ctx.timeout p.2) := by
  simp only [dnsRun, h, Bool.not_true]
  rw [dns_foldl_eq_filterMap]
  simp [mkLegacyResult]

/-- C7 (witness): the theorem at a concrete domain and the mixed session,
hypothesis discharged concretely. -/
theorem dns_record_types_independent_witness :
    truthyOptStr ctxExample.domain = true ∧
    ((dnsRun ctxExample dnsMixedSession).1.warnings =
      DNS_TYPES.filterMap (dnsWarnOf dnsMixedSession (ctxExample.domain.getD "") ctxExample.timeout) ∧
    (dnsRun ctxExample dnsMixedSession).1.data =
      (if (DNS_TYPES.filterMap
            (dnsRecOf dnsMixedSession (ctxExample.domain.getD "") ctxExample.timeout)).isEmpty
       then none
       else some (.obj (DNS_TYPES.filterMap
            (dnsRecOf dnsMixedSession (ctxExample.domain.getD "") ctxExample.timeout)))) ∧
    (dnsRun ctxExample dnsMixedSession).2 =
      DNS_TYPES.map (fun p => dnsReq (ctxExample.domain.getD "") ctxExample.timeout p.2)) :=
  ⟨by decide, dns_record_types_independent ctxExample dnsMixedSession (by decide)⟩

/-- C8: when the HEAD request returns a response, the GET fallback
happens exactly on status 405 or 501 — then both requests are issued and
(when the GET succeeds) the method field reads "GET (fallback)" with the
HEAD-unsupported warning first; on any other HEAD status no fallback
occurs and the method field reads "HEAD". -/
theorem header_fallback_iff_405_501 (ctx : ReconContext) (session : Session) (ua : Nat)
    (url : String) (resp resp2 : HttpResponse)
    (hurl : resolveHeaderUrl ctx = some url)
    (hhead : session (headReqOf url ua ctx.timeout) = .ok resp) :
    ((resp.status_code = 405 ∨ resp.status_code = 501) →
       (headerRun ctx session ua).2.1 =
         [headReqOf url ua ctx.timeout, getReqOf url ua ctx.timeout] ∧
       (session (getReqOf url ua ctx.timeout) = .ok resp2 →
          resultMethod (headerRun ctx session ua).1 = .str "GET (fallback)" ∧
          (headerRun ctx session ua).1.warnings.head? = some HEAD_FALLBACK_WARNING ∧
          listHasRun "HEAD not supported".data HEAD_FALLBACK_WARNING.data = true)) ∧
    (¬(resp.status_code = 405 ∨ resp.status_code = 501) →
       resultMethod (headerRun ctx session ua).1 = .str "HEAD" ∧
       (headerRun ctx session ua).2.1 = [headReqOf url ua ctx.timeout]) := by
  have hh : session ⟨"HEAD", url, [], [("User-Agent", uaAt ua)], ctx.timeout⟩ = .ok resp := hhead
  constructor
  · intro h45
    have hcond : (resp.status_code == 405 || resp.status_code == 501) = true := by
      rcases h45 with h | h <;> simp [h]
    constructor
    · cases hg : session ⟨"GET", url, [], [("User-Agent", uaAt ua)], ctx.timeout⟩ <;>
        simp [headerRun, hurl, hh, hcond, hg, headReqOf, getReqOf]
    · intro hget
      have hg : session ⟨"GET", url, [], [("User-Agent", uaAt ua)], ctx.timeout⟩ = .ok resp2 := hget
      refine ⟨?_, ?_, by decide⟩ <;>
        simp [headerRun, hurl, hh, hcond, hg, resultMethod, headerMetadata, JVal.getKey,
          mkResult, List.find?]
  · intro h45
    have hcond : (resp.status_code == 405 || resp.status_code == 501) = false := by
      push_neg at h45
      simp [h45.1, h45.2]
    constructor <;>
      simp [headerRun, hurl, hh, hcond, resultMethod, headerMetadata, JVal.getKey, headReqOf,
        mkResult, List.find?]

/-- C8 (witness): the fallback behaviour on the concrete 405-on-HEAD
session, via the theorem with every hypothesis discharged. -/
theorem header_fallback_iff_405_501_witness :
    resolveHeaderUrl ctxUrlOnly = some "https://example.test" ∧
    headerFallbackSession (headReqOf "https://example.test" 0 ctxUrlOnly.timeout) =
      .ok resp405c ∧
    (headerRun ctxUrlOnly headerFallbackSession 0).2.1 =
      [headReqOf "https://example.test" 0 ctxUrlOnly.timeout,
       getReqOf "https://example.test" 0 ctxUrlOnly.timeout] ∧
    resultMethod (headerRun ctxUrlOnly headerFallbackSession 0).1 = .str "GET (fallback)" ∧
    (headerRun ctxUrlOnly headerFallbackSession 0).1.warnings.head? =
      some HEAD_FALLBACK_WARNING := by
  have h := header_fallback_iff_405_501 ctxUrlOnly headerFallbackSession 0
    "https://example.test" resp405c resp200c (by decide) rfl
  have h45 := h.1 (Or.inl rfl)
  exact ⟨by decide, rfl, h45.1, (h45.2 rfl).1, (h45.2 rfl).2.1⟩

theorem contains_cons_false {x k : JVal} {seen : List JVal}
    (h : (k :: seen).contains x = false) : (x == k) = false ∧ seen.contains x = false := by
  simpa using h

theorem dedupKeysBeq_not_in_seen (l : List JVal) :
    ∀ seen, ∀ x ∈ dedupKeysBeq l seen, seen.contains x = false := by
  induction l with
  | nil => simp [dedupKeysBeq]
  | cons k rest ih =>
    intro seen x hx
    simp only [dedupKeysBeq] at hx
    by_cases hs : seen.contains k
    · exact ih seen x (by rwa [if_pos hs] at hx)
    · rw [if_neg hs] at hx
      rcases List.mem_cons.mp hx with rfl | hx'
      · exact Bool.eq_false_iff.mpr hs
      · exact (contains_cons_false (ih (k :: seen) x hx')).2

theorem dedupKeysBeq_pairwise (l : List JVal) :
    ∀ seen, (dedupKeysBeq l seen).Pairwise (fun a b => (b == a) = false) := by
  induction l with
  | nil => intro seen; simp [dedupKeysBeq]
  | cons k rest ih =>
    intro seen
    simp only [dedupKeysBeq]
    by_cases hs : seen.contains k
    · simpa [hs] using ih seen
    · rw [if_neg hs]
      refine List.Pairwise.cons (fun b hb => ?_) (ih (k :: seen))
      exact (contains_cons_false (dedupKeysBeq_not_in_seen rest (k :: seen) b hb)).1

theorem certSelect_keys (entries : List JVal) :
    ∀ (seen : List JVal) (rem : Nat), 1 ≤ rem →
      (certSelect entries seen rem).map Prod.fst =
        (dedupKeysBeq (entries.map certKey) seen).take rem := by
  induction entries with
  | nil => intro seen rem _; simp [certSelect, dedupKeysBeq]
  | cons e rest ih =>
    intro seen rem h1
    rcases rem with _ | m
    · exact absurd h1 (by omega)
    simp only [certSelect, List.map_cons, dedupKeysBeq]
    by_cases hs : seen.contains (certKey e)
    · rw [if_pos hs, if_pos hs]
      exact ih seen (m + 1) h1
    · rw [if_neg hs, if_neg hs]
      by_cases hm : m = 0
      · subst hm
        simp [List.take_succ_cons]
      · have hle : ¬ (m + 1 ≤ 1) := by omega
        rw [if_neg hle, List.take_succ_cons, List.map_cons]
        have := ih (certKey e :: seen) (m + 1 - 1) (by omega)
        simpa using this

theorem certSelect_sublist (entries : List JVal) :
    ∀ (seen : List JVal) (rem : Nat),
      (certSelect entries seen rem).Sublist
        (entries.map (fun e => (certKey e, certProject e))) := by
  induction entries with
  | nil => intro seen rem; simp [certSelect]
  | cons e rest ih =>
    intro seen rem
    simp only [certSelect, List.map_cons]
    by_cases hs : seen.contains (certKey e)
    · rw [if_pos hs]
      exact (ih seen rem).cons _
    · rw [if_neg hs]
      by_cases hr : rem ≤ 1
      · rw [if_pos hr]
        exact (List.nil_sublist _).cons₂ _
      · rw [if_neg hr]
        exact (ih _ _).cons₂ _

/-- C9: with a domain present and a successful crt.sh response, the cert
adapter's data is the projected selection; the selection's keys are the
first occurrences of the entries' deduplication keys in payload order
(truncated to the fixed 25), so no two selected entries share a key, the
output is bounded by 25, and it is a subsequence of the processed payload
entries. -/
theorem cert_output_deduplicated_ordered_bounded (ctx : ReconContext) (session : Session)
    (payload : JVal)
    (hd : truthyOptStr ctx.domain = true)
    (hp : fetchJson session
        ⟨"GET", "https://crt.sh/?q=" ++ ctx.domain.getD "" ++ "&output=json", [], [],
         ctx.timeout⟩ = .ok payload) :
    (certsRun ctx session).1.data =
      some (.arr ((certSelect (pyIterElems payload) [] 25).map Prod.snd)) ∧
    (certSelect (pyIterElems payload) [] 25).map Prod.fst =
      (dedupKeysBeq ((pyIterElems payload).map certKey) []).take 25 ∧
    (certSelect (pyIterElems payload) [] 25).length ≤ 25 ∧
    (certSelect (pyIterElems payload) [] 25).Pairwise (fun a b => (b.1 == a.1) = false) ∧
    (certSelect (pyIterElems payload) [] 25).Sublist
      ((pyIterElems payload).map (fun e => (certKey e, certProject e))) := by
  refine ⟨?_, certSelect_keys _ [] 25 (by omega), ?_, ?_, certSelect_sublist _ [] 25⟩
  · simp only [certsRun, hd, Bool.not_true]
    rw [hp]
    simp [mkLegacyResult]
  · have hkeys := certSelect_keys (pyIterElems payload) [] 25 (by omega)
    have : ((certSelect (pyIterElems payload) [] 25).map Prod.fst).length ≤ 25 := by
      rw [hkeys]
      exact List.length_take_le 25 _
    simpa using this
  · have hkeys := certSelect_keys (pyIterElems payload) [] 25 (by omega)
    have hpw : ((certSelect (pyIterElems payload) [] 25).map Prod.fst).Pairwise
        (fun a b => (b == a) = false) := by
      rw [hkeys]
      exact (dedupKeysBeq_pairwise _ []).sublist (List.take_sublist _ _) |>.imp (fun h => h)
    exact (List.pairwise_map.mp hpw)

/-- C9 (witness): the theorem at the concrete payload, hypotheses
discharged concretely. -/
theorem cert_output_deduplicated_ordered_bounded_witness :
    truthyOptStr ctxExample.domain = true ∧
    ((certsRun ctxExample certSession).1.data =
      some (.arr ((certSelect (pyIterElems certPayload) [] 25).map Prod.snd)) ∧
    (certSelect (pyIterElems certPayload) [] 25).map Prod.fst =
      (dedupKeysBeq ((pyIterElems certPayload).map certKey) []).take 25 ∧
    (certSelect (pyIterElems certPayload) [] 25).length ≤ 25 ∧
    (certSelect (pyIterElems certPayload) [] 25).Pairwise (fun a b => (b.1 == a.1) = false) ∧
    (certSelect (pyIterElems certPayload) [] 25).Sublist
      ((pyIterElems certPayload).map (fun e => (certKey e, certProject e)))) := by
  refine ⟨by decide, ?_⟩
  have h := cert_output_deduplicated_ordered_bounded ctxExample certSession certPayload
    (by decide) rfl
  exact ⟨h.1, h.2.1, h.2.2.1, h.2.2.2.1, h.2.2.2.2⟩

/-- C10 (amended): the header adapter draws its User-Agent from the
shared class-level cycle — a run at draw counter i sends
USER_AGENTS[i mod 4] in its HEAD request, records the same string
whenever it produces data, and advances the counter by one; a run that
fails the URL precondition returns without drawing, leaving the counter
unchanged (so the counter indexes draws, not invocations).  Two runs with
identical context and upstream behaviour but consecutive counters return
different data. -/
theorem ua_cycle_rotates_per_drawing_run :
    (∀ i, uaAt i = USER_AGENTS.getD (i % 4) "") ∧
    (∀ (ctx : ReconContext) (session : Session) (i : Nat) (url : String),
       resolveHeaderUrl ctx = some url →
         (headerRun ctx session i).2.2 = i + 1 ∧
         (headerRun ctx session i).2.1.head? = some (headReqOf url i ctx.timeout) ∧
         (∀ d, (headerRun ctx session i).1.data = some d →
            d.getKey "user_agent" = .str (uaAt i))) ∧
    (∀ (ctx : ReconContext) (session : Session) (i : Nat),
       resolveHeaderUrl ctx = none →
         headerRun ctx session i =
           (mkResult "headers" none [] none
              (some "A domain or URL is required for header sniffing."), [], i)) ∧
    (headerRun ctxUrlOnly headerFallbackSession 0).1.data ≠
      (headerRun ctxUrlOnly headerFallbackSession 1).1.data := by
  refine ⟨fun i => rfl, ?_, ?_, ?_⟩
  · intro ctx session i url hurl
    cases hs : session ⟨"HEAD", url, [], [("User-Agent", uaAt i)], ctx.timeout⟩ with
    | error e =>
      refine ⟨?_, ?_, ?_⟩ <;> simp [headerRun, hurl, hs, headReqOf, mkResult]
    | ok resp =>
      by_cases hc : (resp.status_code == 405 || resp.status_code == 501) = true
      · cases hg : session ⟨"GET", url, [], [("User-Agent", uaAt i)], ctx.timeout⟩ with
        | error e2 =>
          refine ⟨?_, ?_, ?_⟩ <;>
            simp [headerRun, hurl, hs, hc, hg, headReqOf, mkResult]
        | ok resp2 =>
          refine ⟨?_, ?_, ?_⟩ <;>
            simp [headerRun, hurl, hs, hc, hg, headReqOf, mkResult, headerMetadata,
              JVal.getKey, List.find?]
      · refine ⟨?_, ?_, ?_⟩ <;>
          simp [headerRun, hurl, hs, hc, headReqOf, mkResult, headerMetadata,
            JVal.getKey, List.find?]
  · intro ctx session i h
    simp [headerRun, h]
  · intro h
    exact absurd
      (congrArg (fun o => pyStr ((o.getD JVal.nul).getKey "user_agent")) h) (by decide)

/-- C10 (amended, witness): draw bookkeeping at concrete inputs, via the
theorem with hypotheses discharged. -/
theorem ua_cycle_rotates_per_drawing_run_witness :
    resolveHeaderUrl ctxUrlOnly = some "https://example.test" ∧
    ((headerRun ctxUrlOnly headerFallbackSession 7).2.2 = 7 + 1 ∧
     (headerRun ctxUrlOnly headerFallbackSession 7).2.1.head? =
       some (headReqOf "https://example.test" 7 ctxUrlOnly.timeout) ∧
     (∀ d, (headerRun ctxUrlOnly headerFallbackSession 7).1.data = some d →
        d.getKey "user_agent" = .str (uaAt 7))) ∧
    resolveHeaderUrl ctxEmpty = none ∧
    headerRun ctxEmpty headerFallbackSession 3 =
      (mkResult "headers" none [] none
         (some "A domain or URL is required for header sniffing."), [], 3) := by
  have h := ua_cycle_rotates_per_drawing_run
  exact ⟨by decide,
    h.2.1 ctxUrlOnly headerFallbackSession 7 "https://example.test" (by decide),
    by decide,
    h.2.2.1 ctxEmpty headerFallbackSession 3 (by decide)⟩

/-- C10 (counterexample): counted process-wide, the invocation at index 1
(0-based) sends and records USER_AGENTS[0], not USER_AGENTS[1 mod 4],
because the preceding invocation failed the URL precondition and so never
drew from the cycle — refuting the claim's indexing by invocation
count. -/
theorem second_invocation_not_second_user_agent :
    ((headerRunSeq headerFallbackSession [ctxEmpty, ctxUrlOnly] 0).get? 1).map
        recordedUserAgent = some (uaAt 0) ∧
    ¬ (((headerRunSeq headerFallbackSession [ctxEmpty, ctxUrlOnly] 0).get? 1).map
        recordedUserAgent = some (USER_AGENTS.getD (1 % 4) "")) := by
  constructor <;> decide

end Williecat
